import Mathlib

/-!
Shallow embedding of the deno-sqlite driver core (halvardssm/deno-sqlite):
the connection / transaction state machine, the open-flag and
create_function-flag assembly, the `close` cleanup sequence, the
user-defined-function result marshalling, and the tagged-template SQL
helper.  Definitions are translated from the TypeScript sources
(`src/src/events.ts`, `src/src/sqlx.ts`, and the core/connection modules);
native SQLite calls are modelled as oracles (explicit outcome parameters),
and thrown JavaScript exceptions as `Except` / `Option` error results.
-/

/-- Kinds of errors observable at the driver surface.
`sqliteError code` models a `SqliteError` raised by `unwrap` on a non-OK
native result code; `transactionInactive` models `SqliteTransactionError`
("Transaction is not active, create a new one using beginTransaction");
`connectionClosed` models the plain `Error("Database connection is not open")`
thrown by the `SqliteConnection.db` getter. -/
inductive SqliteErrorKind where
  | sqliteError (code : Nat)
  | transactionInactive
  | connectionClosed
deriving DecidableEq

/-- A JavaScript value as seen by the driver's marshalling code.
`vNumber safeInt payload` models a JS `number`: `safeInt` is the value of
`Number.isSafeInteger(x)` and `payload` identifies the number (its integer
value when `safeInt` is true).  `vBytes` is a `Uint8Array`; `vOther s`
is any value outside the BindValue set, with `s = Deno.inspect(value)`. -/
inductive JSVal where
  | vNull
  | vUndefined
  | vBool (b : Bool)
  | vNumber (safeInt : Bool) (payload : Int)
  | vBigInt (i : Int)
  | vString (s : String)
  | vBytes (bs : List Nat)
  | vOther (inspected : String)
deriving DecidableEq

/-- Whether a JS value belongs to the closed BindValue set
{null/undefined, boolean, number, bigint, string, byte array}. -/
def JSVal.isBindValue : JSVal → Bool
  | .vOther _ => false
  | _ => true

/-- The single `sqlite3_result_*` call a user-defined-function callback
issues to deliver its result to SQLite. -/
inductive ResultAction where
  | resultNull
  | resultInt (n : Int)
  | resultInt64 (i : Int)
  | resultDouble (payload : Int)
  | resultText (s : String)
  | resultBlob (bs : List Nat)
  | resultError (msg : String)
deriving DecidableEq

/-- The result-dispatch block shared verbatim by the scalar-function
callback and the aggregate `final` callback in `events.ts`
(`SqliteConnection.function` / `SqliteConnection.aggregate`):
null/undefined → `result_null`; boolean → `result_int` 0/1; number →
`result_int64` when `Number.isSafeInteger`, else `result_double`;
bigint → `result_int64`; string → `result_text`; `Uint8Array` →
`result_blob`; anything else → `result_error("Invalid return value: " +
Deno.inspect(result))`. -/
def setFnResult : JSVal → ResultAction
  | .vNull => .resultNull
  | .vUndefined => .resultNull
  | .vBool b => .resultInt (if b then 1 else 0)
  | .vNumber true i => .resultInt64 i
  | .vNumber false p => .resultDouble p
  | .vBigInt i => .resultInt64 i
  | .vString s => .resultText s
  | .vBytes bs => .resultBlob bs
  | .vOther inspected => .resultError ("Invalid return value: " ++ inspected)

/-- The scalar UDF callback body after argument decoding
(`SqliteConnection.function` in `events.ts`): `fn(...args)` is run inside
`try`/`catch`; a thrown error `e` becomes `sqlite3_result_error(e.message)`
and the callback returns, otherwise the returned value goes through the
result-dispatch block.  `fnOutcome` is the outcome of the host call:
`.error msg` models a throw with message `msg`. -/
def scalarFuncInvoke (fnOutcome : Except String JSVal) : ResultAction :=
  match fnOutcome with
  | .error msg => .resultError msg
  | .ok v => setFnResult v

/-- The aggregate `step` callback body after argument decoding
(`SqliteConnection.aggregate`): `options.step(aggregate, ...args)` runs in
`try`/`catch`; a throw reports `sqlite3_result_error(e.message)` and the
context is left unchanged, otherwise the returned value is stored as the
new aggregate context and no `result_*` call is made. -/
def aggregateStepInvoke (stepOutcome : Except String JSVal) :
    Option ResultAction × Option JSVal :=
  match stepOutcome with
  | .error msg => (some (.resultError msg), none)
  | .ok v => (none, some v)

/-- The aggregate `final` callback body (`SqliteConnection.aggregate`):
`options.final(aggregate)` (or the aggregate itself) runs in `try`/`catch`;
a throw reports `sqlite3_result_error(e.message)`, otherwise the value goes
through the same result-dispatch block as scalar functions. -/
def aggregateFinalInvoke (finalOutcome : Except String JSVal) : ResultAction :=
  match finalOutcome with
  | .error msg => .resultError msg
  | .ok v => setFnResult v

/-- Options for user-defined functions (`FunctionOptions` in `events.ts`).
Absent fields are `none`; TypeScript truthiness of an absent option is
`Option.getD · false`. -/
structure FunctionOptions where
  varargs : Option Bool := none
  deterministic : Option Bool := none
  directOnly : Option Bool := none
  innocuous : Option Bool := none
  subtype : Option Bool := none
deriving DecidableEq

/-- The create_function flag assembly in `SqliteConnection.function`
(`events.ts`), transcribed exactly: start from 1 (SQLITE_UTF8), then
`deterministic` ORs 0x800, `directOnly` ORs 0x80000, `subtype` ORs
0x100000, and then the code tests `options?.directOnly` a second time to
OR 0x200000 (the `innocuous` option is never consulted). -/
def createFunctionFlags (o : FunctionOptions) : Nat :=
  let flags := 1
  let flags := if o.deterministic.getD false then flags ||| 0x000000800 else flags
  let flags := if o.directOnly.getD false then flags ||| 0x000080000 else flags
  let flags := if o.subtype.getD false then flags ||| 0x000100000 else flags
  let flags := if o.directOnly.getD false then flags ||| 0x000200000 else flags
  flags

/-- The identical flag-assembly block duplicated in
`SqliteConnection.aggregate` (`events.ts`). -/
def aggregateCreateFunctionFlags (o : FunctionOptions) : Nat :=
  let flags := 1
  let flags := if o.deterministic.getD false then flags ||| 0x000000800 else flags
  let flags := if o.directOnly.getD false then flags ||| 0x000080000 else flags
  let flags := if o.subtype.getD false then flags ||| 0x000100000 else flags
  let flags := if o.directOnly.getD false then flags ||| 0x000200000 else flags
  flags

/-- Argument count passed to `sqlite3_create_function` for a scalar UDF:
`options?.varargs ? -1 : fn.length`. -/
def functionArgCount (o : FunctionOptions) (fnLength : Nat) : Int :=
  if o.varargs.getD false then -1 else (fnLength : Int)

/-- Argument count passed to `sqlite3_create_function` for an aggregate:
`options?.varargs ? -1 : options.step.length - 1`. -/
def aggregateArgCount (o : FunctionOptions) (stepLength : Nat) : Int :=
  if o.varargs.getD false then -1 else (stepLength : Int) - 1

/-- SQLite open-flag constants referenced by the constructor
(`constants.ts`; values are the standard SQLite C API open flags —
the flag logic proved below does not depend on the particular values). -/
def SQLITE3_OPEN_READONLY : Nat := 0x00000001

/-- SQLITE_OPEN_READWRITE. -/
def SQLITE3_OPEN_READWRITE : Nat := 0x00000002

/-- SQLITE_OPEN_CREATE. -/
def SQLITE3_OPEN_CREATE : Nat := 0x00000004

/-- SQLITE_OPEN_MEMORY. -/
def SQLITE3_OPEN_MEMORY : Nat := 0x00000080

/-- The open options consulted by the flag assembly in the
`SqliteConnection` constructor (`DatabaseOpenOptions` in `events.ts`).
Absent fields are `none`. -/
structure DatabaseOpenOptions where
  readonly : Option Bool := none
  create : Option Bool := none
  flags : Option Nat := none
  memory : Option Bool := none
deriving DecidableEq

/-- Open-flag assembly from the `SqliteConnection` constructor
(`events.ts`): `this.#flags = 0`; if `options.flags !== undefined` it is
used verbatim; otherwise `memory` ORs OPEN_MEMORY, `readonly ?? false`
ORs OPEN_READONLY else OPEN_READWRITE, and `(create ?? true) &&
!readonly` ORs OPEN_CREATE. -/
def dbOpenFlags (o : DatabaseOpenOptions) : Nat :=
  match o.flags with
  | some f => f
  | none =>
    let flags := 0
    let flags := if o.memory.getD false then flags ||| SQLITE3_OPEN_MEMORY else flags
    let flags := if o.readonly.getD false then flags ||| SQLITE3_OPEN_READONLY
      else flags ||| SQLITE3_OPEN_READWRITE
    let flags :=
      if (o.create.getD true) && !(o.readonly.getD false) then
        flags ||| SQLITE3_OPEN_CREATE
      else flags
    flags

/-- Open-flag assembly as the specification sentence words it: a raw
`flags` value is used verbatim; otherwise the union of: OPEN_MEMORY when
`memory`, OPEN_READONLY when `readonly` else OPEN_READWRITE, and
OPEN_CREATE when `create` (default true) and not `readonly`. -/
def dbOpenFlagsSpec (o : DatabaseOpenOptions) : Nat :=
  match o.flags with
  | some f => f
  | none =>
    (if o.memory.getD false then SQLITE3_OPEN_MEMORY else 0) |||
      (if o.readonly.getD false then SQLITE3_OPEN_READONLY
        else SQLITE3_OPEN_READWRITE) |||
      (if (o.create.getD true) && !(o.readonly.getD false) then
        SQLITE3_OPEN_CREATE
      else 0)

/-- Observable state of a `SqliteConnection` (`events.ts`), together with
the native-side facts its getters read.  `openFlag` is the private
`#open` field; `statementsToDb` is the global `STATEMENTS_TO_DB` map
(statement pointer, database pointer); `callbacks` is the `#callbacks`
set of registered host-callback trampolines; `autocommitRaw` is what
`sqlite3_get_autocommit` returns for the handle; `closeRC` is the result
code `sqlite3_close_v2` would return. -/
structure SqliteConnectionState where
  openFlag : Bool
  handle : Nat
  statementsToDb : List (Nat × Nat)
  callbacks : List Nat
  autocommitRaw : Nat
  closeRC : Nat
deriving DecidableEq

/-- Model of the `sqlite3_get_autocommit` FFI read. -/
def sqlite3GetAutocommit (s : SqliteConnectionState) : Nat :=
  s.autocommitRaw

/-- The `autocommit` getter: `sqlite3_get_autocommit(this.handle) === 1`. -/
def connAutocommit (s : SqliteConnectionState) : Bool :=
  sqlite3GetAutocommit s == 1

/-- The connection `inTransaction` getter: `this.#open && !this.autocommit`. -/
def connInTransaction (s : SqliteConnectionState) : Bool :=
  s.openFlag && !(connAutocommit s)

/-- One observable step of the `close` cleanup sequence. -/
inductive CloseAction where
  | finalizeStmt (stmt : Nat)
  | closeCallback (cb : Nat)
  | closeHandle
  | emitCloseEvent
deriving DecidableEq

/-- `SqliteConnection.close` (`events.ts`), transcribed: an early return
when `#open` is already false; otherwise every entry of `STATEMENTS_TO_DB`
whose database pointer equals this handle is finalized and removed, every
registered callback is closed (the `#callbacks` set itself is not
cleared), then `unwrap(sqlite3_close_v2(this.handle))` — which throws a
`SqliteError` on a non-zero result code, aborting the method before
`#open = false` and the close-event dispatch.  Returns the new state, the
ordered trace of cleanup actions performed, and `some code` when the
method threw. -/
def close (s : SqliteConnectionState) :
    SqliteConnectionState × List CloseAction × Option Nat :=
  if !s.openFlag then (s, [], none)
  else
    let mine := s.statementsToDb.filter (fun p => p.2 == s.handle)
    let finalizeActs := mine.map (fun p => CloseAction.finalizeStmt p.1)
    let remaining := s.statementsToDb.filter (fun p => !(p.2 == s.handle))
    let cbActs := s.callbacks.map CloseAction.closeCallback
    let s1 := { s with statementsToDb := remaining }
    if s.closeRC == 0 then
      ({ s1 with openFlag := false },
        finalizeActs ++ cbActs ++ [CloseAction.closeHandle, CloseAction.emitCloseEvent],
        none)
    else
      (s1, finalizeActs ++ cbActs ++ [CloseAction.closeHandle], some s.closeRC)

/-- Observable state of a `SqliteTransaction` (core module): the private
`#inTransaction` flag (initially true) and the underlying connection's
`connected` observation (`super.connected`, i.e.
`Boolean(connection._db?.open)`). -/
structure SqliteTransactionState where
  inTransactionFlag : Bool
  connectionConnected : Bool
deriving DecidableEq

/-- The `SqliteTransaction.connected` getter: when `#inTransaction` is
false it throws `SqliteTransactionError`, otherwise it returns
`super.connected`. -/
def txConnected (s : SqliteTransactionState) : Except SqliteErrorKind Bool :=
  if !s.inTransactionFlag then .error .transactionInactive
  else .ok s.connectionConnected

/-- The `SqliteTransaction.inTransaction` getter:
`this.connected && this.#inTransaction` — evaluating `this.connected`
first, so its throw propagates. -/
def txInTransaction (s : SqliteTransactionState) : Except SqliteErrorKind Bool :=
  match txConnected s with
  | .error e => .error e
  | .ok c => .ok (c && s.inTransactionFlag)

/-- `SqliteTransaction.commitTransaction`: `await this.execute("COMMIT")`
inside `try`/`catch`; only on a throw is `#inTransaction` set to false
before rethrowing.  `execOutcome` is the outcome of the underlying COMMIT
statement (`none` = success). -/
def commitTransaction (s : SqliteTransactionState)
    (execOutcome : Option SqliteErrorKind) :
    SqliteTransactionState × Except SqliteErrorKind Unit :=
  match execOutcome with
  | none => (s, .ok ())
  | some e => ({ s with inTransactionFlag := false }, .error e)

/-- `SqliteTransaction.rollbackTransaction`: executes `ROLLBACK TO ?` or
`ROLLBACK` inside `try`/`catch`; only on a throw is `#inTransaction` set
to false before rethrowing. -/
def rollbackTransaction (s : SqliteTransactionState)
    (execOutcome : Option SqliteErrorKind) :
    SqliteTransactionState × Except SqliteErrorKind Unit :=
  match execOutcome with
  | none => (s, .ok ())
  | some e => ({ s with inTransactionFlag := false }, .error e)

/-- A query issued through the transaction
(`SqliteQueriable.execute` → `prepare` → `SqlitePrepared`): the path
reads `connection.db` (throwing only when the connection itself is not
open) and never consults the transaction's `#inTransaction` flag or its
`connected` override.  `stmtOutcome` is the outcome of the underlying
statement. -/
def txExecute (s : SqliteTransactionState)
    (stmtOutcome : Except SqliteErrorKind Nat) : Except SqliteErrorKind Nat :=
  if s.connectionConnected then stmtOutcome else .error .connectionClosed

/-- The statements issued by the scoped `transaction(fn)` combinator. -/
inductive TxAction where
  | txBegin
  | txCommit
  | txRollback
deriving DecidableEq

/-- `SqliteTransactionable.transaction` (core module; identically
`Transactionable.transaction` in `src/src/sqlx.ts`):
`beginTransaction` runs before the `try` block (its failure propagates
directly); inside `try`, `fn(transaction)` then
`commitTransaction`; the `catch` arm issues `rollbackTransaction` and
then rethrows the caught error — so a failing commit is also caught and
followed by a rollback, and a failing rollback replaces the caught
error.  Outcomes of the native statements are oracles; the result is the
ordered trace of BEGIN/COMMIT/ROLLBACK statements issued and the overall
outcome. -/
def transactionScoped (beginOutcome : Option SqliteErrorKind)
    (fnOutcome : Except SqliteErrorKind Nat)
    (commitOutcome : Option SqliteErrorKind)
    (rollbackOutcome : Option SqliteErrorKind) :
    List TxAction × Except SqliteErrorKind Nat :=
  match beginOutcome with
  | some e => ([.txBegin], .error e)
  | none =>
    match fnOutcome with
    | .error e =>
      match rollbackOutcome with
      | none => ([.txBegin, .txRollback], .error e)
      | some e2 => ([.txBegin, .txRollback], .error e2)
    | .ok v =>
      match commitOutcome with
      | none => ([.txBegin, .txCommit], .ok v)
      | some e =>
        match rollbackOutcome with
        | none => ([.txBegin, .txCommit, .txRollback], .error e)
        | some e2 => ([.txBegin, .txCommit, .txRollback], .error e2)

/-- JavaScript `Array.prototype.join(sep)` on an array of strings, as used
by the tagged-template helpers (`strings.join("?")`). -/
def jsArrayJoin (sep : String) : List String → String
  | [] => ""
  | [s] => s
  | s :: rest => s ++ sep ++ jsArrayJoin sep rest

/-- The query call a queriable method ultimately issues: the SQL text and
the positional bind parameters, plus which underlying method receives it. -/
structure QueryCall where
  sqlText : String
  params : List JSVal
  positional : Bool
deriving DecidableEq

/-- `SqliteQueriable.sql` (core module; identically `Queriable.sql` in
`src/src/sqlx.ts`): `const sql = strings.join("?")` then
`this.query(sql, parameters)`. -/
def sqlTemplate (strings : List String) (parameters : List JSVal) : QueryCall :=
  { sqlText := jsArrayJoin "?" strings, params := parameters, positional := false }

/-- `SqliteQueriable.sqlArray`: `const sql = strings.join("?")` then
`this.queryArray(sql, parameters)`. -/
def sqlArrayTemplate (strings : List String) (parameters : List JSVal) :
    QueryCall :=
  { sqlText := jsArrayJoin "?" strings, params := parameters, positional := true }

/-- Auxiliary for the template-helper claim: `String.intercalate.go`
distributes over a left factor of its accumulator. -/
theorem intercalate_go_factor (sep : String) :
    ∀ (bs : List String) (x y : String),
      String.intercalate.go (x ++ y) sep bs = x ++ String.intercalate.go y sep bs
  | [], _, _ => rfl
  | c :: cs, x, y => by
    show String.intercalate.go (x ++ y ++ sep ++ c) sep cs =
      x ++ String.intercalate.go (y ++ sep ++ c) sep cs
    rw [String.append_assoc x y sep, String.append_assoc x (y ++ sep) c]
    exact intercalate_go_factor sep cs x (y ++ sep ++ c)

/-- The JavaScript `Array.prototype.join` on strings agrees with Lean's
`String.intercalate`. -/
theorem jsArrayJoin_eq_intercalate (sep : String) (l : List String) :
    jsArrayJoin sep l = String.intercalate sep l := by
  match l with
  | [] => rfl
  | a :: as =>
    show jsArrayJoin sep (a :: as) = String.intercalate.go a sep as
    induction as generalizing a with
    | nil => rfl
    | cons b bs ih =>
      show a ++ sep ++ jsArrayJoin sep (b :: bs) =
        String.intercalate.go (a ++ sep ++ b) sep bs
      rw [intercalate_go_factor sep bs (a ++ sep) b, ih b]

/-- C1 counterexample.  The claim says that once `commitTransaction` has
completed — also when it returns normally — the Transaction is terminal
and further queries are rejected with a transaction-inactive error.  On
the initial transaction state (flag set, connection open), a COMMIT whose
underlying statement succeeds returns normally yet leaves the state
unchanged: the flag is still set, `connected`/`inTransaction` report an
active transaction, and a further query executes instead of being
rejected.  The same holds for a successful `rollbackTransaction`. -/
theorem claim_C1_counterexample :
    commitTransaction ⟨true, true⟩ none = (⟨true, true⟩, Except.ok ()) ∧
    txConnected (commitTransaction ⟨true, true⟩ none).1 = Except.ok true ∧
    txInTransaction (commitTransaction ⟨true, true⟩ none).1 = Except.ok true ∧
    txExecute (commitTransaction ⟨true, true⟩ none).1 (Except.ok 7) = Except.ok 7 ∧
    rollbackTransaction ⟨true, true⟩ none = (⟨true, true⟩, Except.ok ()) :=
  ⟨rfl, rfl, rfl, rfl, rfl⟩

/-- C1, amended: only a `commitTransaction` or `rollbackTransaction` that
throws clears the internal flag, making the Transaction terminal — its
`connected` and `inTransaction` getters then throw
`SqliteTransactionError`.  A commit or rollback that returns normally
leaves the state exactly as it was (still flagged active), and queries
issued through the transaction are never gated on the flag: they execute
against the connection, failing only when the connection itself is not
open. -/
theorem claim_C1_amended (s : SqliteTransactionState) (e : SqliteErrorKind)
    (out : Except SqliteErrorKind Nat) :
    (commitTransaction s (some e)).1.inTransactionFlag = false ∧
    (commitTransaction s (some e)).2 = Except.error e ∧
    txConnected (commitTransaction s (some e)).1 =
      Except.error SqliteErrorKind.transactionInactive ∧
    txInTransaction (commitTransaction s (some e)).1 =
      Except.error SqliteErrorKind.transactionInactive ∧
    (rollbackTransaction s (some e)).1.inTransactionFlag = false ∧
    (rollbackTransaction s (some e)).2 = Except.error e ∧
    txConnected (rollbackTransaction s (some e)).1 =
      Except.error SqliteErrorKind.transactionInactive ∧
    commitTransaction s none = (s, Except.ok ()) ∧
    rollbackTransaction s none = (s, Except.ok ()) ∧
    txExecute (commitTransaction s (some e)).1 out =
      (if s.connectionConnected then out
        else Except.error SqliteErrorKind.connectionClosed) :=
  ⟨rfl, rfl, rfl, rfl, rfl, rfl, rfl, rfl, rfl, rfl⟩

/-- C2 counterexample.  The claim says a failing commit propagates
"without an extra rollback being issued".  With `fn` succeeding and the
COMMIT statement failing, the scoped `transaction` combinator issues
BEGIN, COMMIT and then an extra ROLLBACK (the failing commit is caught by
the same `catch` arm that handles `fn` failures). -/
theorem claim_C2_counterexample :
    transactionScoped none (Except.ok 0) (some (SqliteErrorKind.sqliteError 1)) none =
      ([TxAction.txBegin, TxAction.txCommit, TxAction.txRollback],
        Except.error (SqliteErrorKind.sqliteError 1)) ∧
    TxAction.txRollback ∈
      (transactionScoped none (Except.ok 0)
        (some (SqliteErrorKind.sqliteError 1)) none).1 :=
  ⟨rfl, by simp [transactionScoped]⟩

/-- C2, amended: with BEGIN succeeding, `transaction(fn)` issues COMMIT
iff `fn` returns without throwing; when `fn` throws, a ROLLBACK is issued
and `fn`'s original error is rethrown provided the rollback succeeds (a
failing rollback's own error replaces it); and when the COMMIT fails, the
catch arm issues an extra ROLLBACK, after which the commit error
propagates — unless that rollback also fails, in which case the rollback
error propagates instead. -/
theorem claim_C2_amended (v : Nat) (e e2 : SqliteErrorKind)
    (fnOut : Except SqliteErrorKind Nat) (cOut rOut : Option SqliteErrorKind) :
    (TxAction.txCommit ∈ (transactionScoped none fnOut cOut rOut).1 ↔
      ∃ w, fnOut = Except.ok w) ∧
    transactionScoped none (Except.ok v) none rOut =
      ([TxAction.txBegin, TxAction.txCommit], Except.ok v) ∧
    transactionScoped none (Except.error e) cOut none =
      ([TxAction.txBegin, TxAction.txRollback], Except.error e) ∧
    transactionScoped none (Except.error e) cOut (some e2) =
      ([TxAction.txBegin, TxAction.txRollback], Except.error e2) ∧
    transactionScoped none (Except.ok v) (some e) none =
      ([TxAction.txBegin, TxAction.txCommit, TxAction.txRollback],
        Except.error e) ∧
    transactionScoped none (Except.ok v) (some e) (some e2) =
      ([TxAction.txBegin, TxAction.txCommit, TxAction.txRollback],
        Except.error e2) := by
  refine ⟨?_, ?_, ?_, ?_, ?_, ?_⟩
  · constructor
    · intro hmem
      cases fnOut with
      | ok w => exact ⟨w, rfl⟩
      | error e3 =>
        exfalso
        cases rOut <;> simp [transactionScoped] at hmem
    · rintro ⟨w, hw⟩
      subst hw
      cases cOut <;> cases rOut <;> simp [transactionScoped]
  · cases rOut <;> rfl
  · rfl
  · rfl
  · rfl
  · rfl

/-- C3 counterexample.  The claim says each cleanup step of `close` is
attempted even if an earlier step threw, with the first captured error
rethrown only after all cleanup completes.  On an open connection whose
`sqlite3_close_v2` returns code 5 (SQLITE_BUSY), `unwrap` throws at step
(3): the close event (step 4) is never emitted and the `#open` flag stays
true — later steps are not attempted and the error is not deferred. -/
theorem claim_C3_counterexample :
    close ⟨true, 7, [(3, 7)], [5], 1, 5⟩ =
      (⟨true, 7, [], [5], 1, 5⟩,
        [CloseAction.finalizeStmt 3, CloseAction.closeCallback 5,
          CloseAction.closeHandle],
        some 5) ∧
    CloseAction.emitCloseEvent ∉ (close ⟨true, 7, [(3, 7)], [5], 1, 5⟩).2.1 ∧
    (close ⟨true, 7, [(3, 7)], [5], 1, 5⟩).1.openFlag = true := by
  refine ⟨rfl, by decide, rfl⟩

/-- C3, amended: on an open connection the cleanup steps run in order —
finalize this database's statements, close each registered callback,
close the handle, emit the close event — but there is no error capture:
when `sqlite3_close_v2` fails, its error propagates immediately, the
close event is not emitted and the open flag is left set (only on success
does the flag clear and the event fire). -/
theorem claim_C3_amended (hdl : Nat) (stmts : List (Nat × Nat)) (cbs : List Nat)
    (ac rc : Nat) :
    close ⟨true, hdl, stmts, cbs, ac, rc⟩ =
      (⟨!(rc == 0), hdl, stmts.filter (fun p => !(p.2 == hdl)), cbs, ac, rc⟩,
        (stmts.filter (fun p => p.2 == hdl)).map
            (fun p => CloseAction.finalizeStmt p.1) ++
          cbs.map CloseAction.closeCallback ++ [CloseAction.closeHandle] ++
          (if rc == 0 then [CloseAction.emitCloseEvent] else []),
        if rc == 0 then none else some rc) := by
  cases hrc : rc == 0 <;> simp [close, hrc]

/-- C4: the code evaluated at the failing inputs.  `createFunctionFlags`
(and its duplicate in `aggregate`) never consults the `innocuous` option:
with `innocuous` set the flags stay 1 and bit 0x200000 is clear, while
`directOnly` alone sets bit 0x200000 (in addition to its own 0x80000) —
the second `options?.directOnly` test in the source is a copy-paste slip
where `options?.innocuous` was intended.  The argument-count part of the
claim does hold: `-1` under `varargs`, else `fn.length` (aggregates:
`step.length - 1`). -/
theorem claim_C4_innocuous_ignored :
    createFunctionFlags { innocuous := some true } = 1 ∧
    createFunctionFlags { innocuous := some true } &&& 0x000200000 = 0 ∧
    createFunctionFlags { directOnly := some true } &&& 0x000200000 = 0x000200000 ∧
    aggregateCreateFunctionFlags { innocuous := some true } = 1 ∧
    aggregateCreateFunctionFlags { directOnly := some true } &&& 0x000200000 =
      0x000200000 ∧
    createFunctionFlags { deterministic := some true } = 0x000000801 ∧
    createFunctionFlags { subtype := some true } = 0x000100001 ∧
    functionArgCount { varargs := some true } 2 = -1 ∧
    functionArgCount {} 2 = 2 ∧
    aggregateArgCount { varargs := some true } 3 = -1 ∧
    aggregateArgCount {} 3 = 2 := by
  decide

/-- C5: the open-flag assembly of the `SqliteConnection` constructor
agrees with the specification sentence for every options record: a raw
`flags` value is used verbatim (all other flag options ignored);
otherwise `memory` adds OPEN_MEMORY, `readonly` adds OPEN_READONLY and
otherwise OPEN_READWRITE, and `create` (default true) adds OPEN_CREATE
unless `readonly`. -/
theorem claim_C5_open_flags (o : DatabaseOpenOptions) :
    dbOpenFlags o = dbOpenFlagsSpec o := by
  unfold dbOpenFlags dbOpenFlagsSpec
  cases hf : o.flags with
  | some f => rfl
  | none =>
    cases hm : o.memory.getD false <;> cases hr : o.readonly.getD false <;>
      cases hc : o.create.getD true <;> simp [hm, hr, hc]

/-- C6: when a registered host scalar function (or an aggregate's `final`)
returns a value outside the closed BindValue set, the invocation completes
with `result_error` whose message begins "Invalid return value: "; and
when the host function body throws, the driver reports the message via
`sqlite3_result_error` (for scalar, aggregate step and aggregate final
callbacks alike) instead of propagating the exception. -/
theorem claim_C6_udf_result_marshalling :
    (∀ v : JSVal, v.isBindValue = false →
      ∃ rest, v = JSVal.vOther rest ∧
        scalarFuncInvoke (Except.ok v) =
          ResultAction.resultError ("Invalid return value: " ++ rest) ∧
        aggregateFinalInvoke (Except.ok v) =
          ResultAction.resultError ("Invalid return value: " ++ rest)) ∧
    (∀ msg,
      scalarFuncInvoke (Except.error msg) = ResultAction.resultError msg ∧
      aggregateStepInvoke (Except.error msg) =
        (some (ResultAction.resultError msg), none) ∧
      aggregateFinalInvoke (Except.error msg) = ResultAction.resultError msg) := by
  constructor
  · intro v h
    cases v with
    | vOther s => exact ⟨s, rfl, rfl, rfl⟩
    | vNull => simp [JSVal.isBindValue] at h
    | vUndefined => simp [JSVal.isBindValue] at h
    | vBool b => simp [JSVal.isBindValue] at h
    | vNumber a b => simp [JSVal.isBindValue] at h
    | vBigInt i => simp [JSVal.isBindValue] at h
    | vString s => simp [JSVal.isBindValue] at h
    | vBytes bs => simp [JSVal.isBindValue] at h
  · intro msg
    exact ⟨rfl, rfl, rfl⟩

/-- Witness for C6 at a concrete invalid return value and a concrete
thrown message. -/
theorem claim_C6_witness :
    (JSVal.vOther "[object Object]").isBindValue = false ∧
    (∃ rest, JSVal.vOther "[object Object]" = JSVal.vOther rest ∧
      scalarFuncInvoke (Except.ok (JSVal.vOther "[object Object]")) =
        ResultAction.resultError ("Invalid return value: " ++ rest) ∧
      aggregateFinalInvoke (Except.ok (JSVal.vOther "[object Object]")) =
        ResultAction.resultError ("Invalid return value: " ++ rest)) ∧
    scalarFuncInvoke (Except.error "boom") = ResultAction.resultError "boom" :=
  ⟨rfl, claim_C6_udf_result_marshalling.1 _ rfl,
    (claim_C6_udf_result_marshalling.2 "boom").1⟩

/-- C7: calling `close` on an already-closed connection (open flag false)
is a no-op: no statement is finalized, no callback released, the handle
untouched, no event emitted, and the state is returned unchanged. -/
theorem claim_C7_closed_close_noop (s : SqliteConnectionState)
    (h : s.openFlag = false) :
    close s = (s, [], none) := by
  simp [close, h]

/-- Witness for C7 at a concrete closed connection state carrying live
statements and callbacks. -/
theorem claim_C7_witness :
    (⟨false, 7, [(3, 7)], [5], 1, 5⟩ : SqliteConnectionState).openFlag = false ∧
    close ⟨false, 7, [(3, 7)], [5], 1, 5⟩ =
      (⟨false, 7, [(3, 7)], [5], 1, 5⟩, [], none) :=
  ⟨rfl, claim_C7_closed_close_noop _ rfl⟩

/-- C8: for every connection state, the `inTransaction` getter equals
`open && !autocommit`, where `autocommit` holds exactly when
`sqlite3_get_autocommit` reports 1 for the handle. -/
theorem claim_C8_inTransaction (s : SqliteConnectionState) :
    connInTransaction s = (s.openFlag && !(sqlite3GetAutocommit s == 1)) ∧
    (connInTransaction s = true ↔
      s.openFlag = true ∧ connAutocommit s = false) ∧
    (connAutocommit s = true ↔ sqlite3GetAutocommit s = 1) := by
  refine ⟨rfl, ?_, ?_⟩
  · simp [connInTransaction, Bool.and_eq_true, Bool.not_eq_true']
  · simp [connAutocommit]

/-- C9: the tagged-template helpers `sql` and `sqlArray` execute exactly
the query text obtained by joining the literal fragments with the single
character "?" and pass the interpolated values as positional bind
parameters; the SQL text is a function of the fragments alone, so no
value is ever spliced into it. -/
theorem claim_C9_sql_template (strings : List String)
    (parameters other : List JSVal) :
    sqlTemplate strings parameters =
      { sqlText := String.intercalate "?" strings, params := parameters,
        positional := false } ∧
    sqlArrayTemplate strings parameters =
      { sqlText := String.intercalate "?" strings, params := parameters,
        positional := true } ∧
    (sqlTemplate strings other).sqlText =
      (sqlTemplate strings parameters).sqlText ∧
    (sqlArrayTemplate strings other).sqlText =
      (sqlArrayTemplate strings parameters).sqlText := by
  refine ⟨?_, ?_, rfl, rfl⟩ <;>
    simp [sqlTemplate, sqlArrayTemplate, jsArrayJoin_eq_intercalate]

/-- C10: a `SqliteTransaction` whose internal in-transaction flag has been
cleared does not report `inTransaction = false`: reading the public
`inTransaction` property throws `SqliteTransactionError`, because the
getter first consults `connected`, whose getter throws whenever the flag
is cleared. -/
theorem claim_C10_inactive_getter_throws (s : SqliteTransactionState)
    (h : s.inTransactionFlag = false) :
    txInTransaction s = Except.error SqliteErrorKind.transactionInactive ∧
    txConnected s = Except.error SqliteErrorKind.transactionInactive ∧
    ∀ b, txInTransaction s ≠ Except.ok b := by
  have hc : txConnected s = Except.error SqliteErrorKind.transactionInactive := by
    simp [txConnected, h]
  refine ⟨?_, hc, ?_⟩
  · simp [txInTransaction, hc]
  · intro b
    simp [txInTransaction, hc]

/-- Witness for C10: the state reached after a failed commit (flag
cleared, connection still open). -/
theorem claim_C10_witness :
    (⟨false, true⟩ : SqliteTransactionState).inTransactionFlag = false ∧
    txInTransaction ⟨false, true⟩ =
      Except.error SqliteErrorKind.transactionInactive :=
  ⟨rfl, (claim_C10_inactive_getter_throws ⟨false, true⟩ rfl).1⟩
